import Mathlib

set_option maxRecDepth 4000

/-!
Verification of the health/diet tool module
(`src/personal_assistant/mcp_tools/health_diet_tools.py`) of the
Agentic_Personal_Assist repository.

The module exposes five tool operations over a dual backend: a remote
"Supabase" store (an external collaborator reached through
`supabase_manager`, modelled here as an oracle of typed call results) and a
local in-memory fallback (a process-global dict of goals and list of food
entries, modelled as an explicit `LocalState` threaded through the
operations).  Python dicts are modelled as insertion-ordered association
lists; a dict key that may be absent is modelled with `Option` (e.g. local
goals never carry an `is_active` key, so that field is `Option Bool` and
reads use the Python `dict.get` default).  Python numbers appearing in the
claims are integers, so numeric fields are `Int` (the progress percentage,
a true division, is computed in `ℚ`).  Python exceptions are modelled as
`Except`/`Option` results; the catch-all `except` blocks of the source
become the corresponding error strings.  `uuid.uuid4()` and
`date.today()`/`datetime.now()` are modelled as explicit string parameters
of each call, and `supabase_manager.is_connected()` as a per-call boolean
input, because the source re-queries it at the top of every operation and
never stores the result.
-/

namespace HealthDiet

/-- Model of Python `str.lower()` (ASCII scope, as exercised here). -/
def pyLower (s : String) : String := String.mk (s.data.map Char.toLower)

/-- Model of Python `str.title()`: the first character of every run of
letters is uppercased, the rest lowercased (ASCII scope). -/
def pyTitleAux : List Char → Bool → List Char
  | [], _ => []
  | c :: rest, prevAlpha =>
      (if c.isAlpha && !prevAlpha then c.toUpper else c.toLower)
        :: pyTitleAux rest c.isAlpha

def pyTitle (s : String) : String := String.mk (pyTitleAux s.data false)

/-- One-decimal fixed formatting used for the `{progress:.1f}` f-string.
Round-half-up on exact rationals; the source formats a binary double with
round-half-even, which agrees on every value the claims exercise. -/
def fmt1 (q : ℚ) : String :=
  let n : Int := Int.fdiv (q.num * 20 + (q.den : Int)) (2 * (q.den : Int))
  toString (Int.fdiv n 10) ++ "." ++ toString (Int.fmod n 10).natAbs

/-- Python truthiness of an optional integer (`None` and `0` are falsy):
the source guards the optional-calorie and daily-calorie-goal branches
with bare `if value:`. -/
def truthyOptInt : Option Int → Bool
  | none => false
  | some n => n != 0

/-- A local health-goal record, as stored in the process-global
`health_goals` dict.  Locally created goals never receive an `is_active`
key, hence `Option Bool`; reads use `dict.get("is_active", True)`. -/
structure Goal where
  goal_id : String
  goal_type : String
  target_value : Int
  current_value : Int
  description : Option String
  created_at : String
  is_active : Option Bool
  deriving Repr, DecidableEq

/-- A local food-log entry, as stored in the process-global `food_logs`
list.  The `calories` key is always present but may hold `None`. -/
structure FoodEntry where
  food_id : String
  meal_type : String
  food_item : String
  calories : Option Int
  date : String
  created_at : String
  deriving Repr, DecidableEq

/-- A goal row returned by the remote store's `get_health_goals`.
`Option` fields model keys the source reads through `dict.get`. -/
structure RGoal where
  goal_id : String
  goal_type : String
  target_value : Int
  current_value : Option Int
  description : Option String
  is_active : Option Bool
  deriving Repr, DecidableEq

/-- A food row returned by the remote store's `get_food_logs`; `none`
calories model an absent key (read through `dict.get` with default 0). -/
structure RFood where
  meal_type : String
  food_item : String
  calories : Option Int
  deriving Repr, DecidableEq

/-- The dict payload sent to the remote `add_health_goal`. -/
structure GoalPayload where
  goal_type : String
  target_value : Int
  current_value : Int
  description : String
  is_active : Bool
  deriving Repr, DecidableEq

/-- The partial-update dict sent to the remote `update_health_goal`;
only the supplied fields are present. -/
structure GoalUpdates where
  target_value : Option Int
  current_value : Option Int
  description : Option String
  deriving Repr, DecidableEq

/-- The dict payload sent to the remote `add_food_log`. -/
structure FoodPayload where
  meal_type : String
  food_item : String
  calories : Option Int
  date : String
  deriving Repr, DecidableEq

/-- The remote store client (`supabase_manager`), an external collaborator:
each method either returns a value or raises (`Except.error`). -/
structure Remote where
  add_health_goal : GoalPayload → Except String String
  update_health_goal : String → GoalUpdates → Except String Bool
  get_health_goals : Except String (List RGoal)
  add_food_log : FoodPayload → Except String String
  get_food_logs : String → Except String (List RFood)

/-- The process-local fallback storage: the module-level `health_goals`
dict (insertion-ordered) and `food_logs` list. -/
structure LocalState where
  health_goals : List (String × Goal)
  food_logs : List FoodEntry
  deriving Repr, DecidableEq

/-- Python dict read `d[k]` / `k in d`: first entry with the key. -/
def dictGet : List (String × Goal) → String → Option Goal
  | [], _ => none
  | p :: rest, k => if p.1 = k then some p.2 else dictGet rest k

/-- Python dict write `d[k] = v`: replace in place if the key exists,
otherwise append (insertion order preserved). -/
def dictInsert : List (String × Goal) → String → Goal → List (String × Goal)
  | [], k, v => [(k, v)]
  | p :: rest, k, v => if p.1 = k then (k, v) :: rest else p :: dictInsert rest k v

/-- `[goal for goal in health_goals.values() if goal.get("is_active", True)]`. -/
def activeGoals (st : LocalState) : List Goal :=
  (st.health_goals.map (·.2)).filter (fun g => g.is_active.getD true)

/-- The derived progress percentage of `get_health_goals`:
`current / target * 100 if target > 0 else 0`. -/
def progressOf (g : Goal) : ℚ :=
  if g.target_value > 0 then ((g.current_value : ℚ) / (g.target_value : ℚ)) * 100 else 0

/-- One goal block of the local `get_health_goals` listing.  The local
`description` key is always present but may hold `None`, which the
f-string renders as the text `None` (the `dict.get` default never fires). -/
def renderGoalLocal (g : Goal) : String :=
  pyTitle g.goal_type ++ "\n  Target: " ++ toString g.target_value ++
    "\n  Current: " ++ toString g.current_value ++
    "\n  Progress: " ++ fmt1 (progressOf g) ++ "%" ++
    "\n  Description: " ++ (g.description.getD "None") ++
    "\n  Goal ID: " ++ g.goal_id ++ "\n\n"

/-- One goal block of the remote `get_health_goals` listing (here absent
keys do take the `dict.get` defaults). -/
def renderGoalRemote (g : RGoal) : String :=
  pyTitle g.goal_type ++ "\n  Target: " ++ toString g.target_value ++
    "\n  Current: " ++ toString (g.current_value.getD 0) ++
    "\n  Progress: " ++
      fmt1 (if g.target_value > 0 then
              (((g.current_value.getD 0) : ℚ) / (g.target_value : ℚ)) * 100
            else 0) ++ "%" ++
    "\n  Description: " ++ (g.description.getD "No description") ++
    "\n  Goal ID: " ++ g.goal_id ++ "\n\n"

/-- Optional-int addition as Python `+` performs it inside `sum(...)`:
any `None` operand raises `TypeError`, modelled by `none`. -/
def addOpt : Option Int → Option Int → Option Int
  | some a, some b => some (a + b)
  | _, _ => none

/-- The Python error text of `int + None` raised by the calorie sums. -/
def typeErrorMsg : String := "unsupported operand type(s) for +: 'int' and 'NoneType'"

/-- `sum(f.get("calories", 0) for f in today_foods)` over local entries:
the `calories` key is always present, so a `None` value reaches `+` and
the whole sum raises. -/
def pySum (l : List FoodEntry) : Option Int :=
  l.foldl (fun acc f => addOpt acc f.calories) (some 0)

/-- Right-fold restatement of `pySum`, used by the grouping lemmas. -/
def pySumR : List FoodEntry → Option Int
  | [] => some 0
  | f :: rest => addOpt f.calories (pySumR rest)

/-- The `Calories: ...` line of `add_food_log`, guarded by truthiness
(`if calories:`), so both `None` and `0` produce no line. -/
def calLine : Option Int → String
  | some c => if c = 0 then "" else "Calories: " ++ toString c ++ "\n"
  | none => ""

/-- The ` (N cal)` suffix of a food line in `get_food_log`, guarded by
truthiness (`if food.get("calories"):`). -/
def calSuffix : Option Int → String
  | some c => if c = 0 then "" else " (" ++ toString c ++ " cal)"
  | none => ""

/-- The goal-commentary block shared by `add_food_log`/`get_food_log`:
progress, and remaining or over-budget amount, relative to `target`. -/
def goalSectionText (target total : Int) : String :=
  let remaining := target - total
  "\n\nDaily Calorie Goal: " ++ toString target ++ " calories" ++
    "\nProgress: " ++ fmt1 (((total : ℚ) / (target : ℚ)) * 100) ++ "%" ++
    (if remaining > 0 then "\nRemaining: " ++ toString remaining ++ " calories"
     else "\nOver goal by: " ++ toString remaining.natAbs ++ " calories")

/-- The local-backend goal check of the food operations: the first
`daily_calories` goal in insertion order (no `is_active` filter in the
local branch), then the truthiness guard `if daily_calorie_goal:`. -/
def goalSectionLocal (goals : List (String × Goal)) (total : Int) : String :=
  match (goals.map (·.2)).find? (fun g => g.goal_type == "daily_calories") with
  | none => ""
  | some g => if g.target_value = 0 then "" else goalSectionText g.target_value total

/-- The remote-backend goal check of the food operations: wrapped in an
inner `try`/`except: pass`, filtered on `is_active` via `dict.get`. -/
def goalSectionRemote (rm : Remote) (total : Int) : String :=
  match rm.get_health_goals with
  | .error _ => ""
  | .ok goals =>
    match goals.find? (fun g => g.goal_type == "daily_calories" && g.is_active.getD true) with
    | none => ""
    | some g => if g.target_value = 0 then "" else goalSectionText g.target_value total

/-! ## The five operations, each split into its two backend branches -/

/-- `add_health_goal`, remote branch (`supabase_manager.is_connected()`). -/
def addHealthGoalRemote (rm : Remote) (st : LocalState) (goal_type : String)
    (target_value : Int) (description : Option String)
    (daily_calorie_goal : Option Int) : String × LocalState :=
  match rm.add_health_goal
      ⟨pyLower goal_type, target_value, 0, description.getD "", true⟩ with
  | .error e => ("Error adding health goal: " ++ e, st)
  | .ok gid =>
    let result := "Health goal added successfully!\n\nGoal: " ++ pyTitle goal_type ++
      "\nTarget: " ++ toString target_value ++ "\nGoal ID: " ++ gid
    match daily_calorie_goal with
    | some g =>
      if g = 0 then (result, st)
      else
        match rm.add_health_goal ⟨"daily_calories", g, 0, "Daily calorie intake target", true⟩ with
        | .error e => ("Error adding health goal: " ++ e, st)
        | .ok cid =>
          (result ++ "\n\nDaily Calorie Goal: " ++ toString g ++
            " calories\nCalorie Goal ID: " ++ cid, st)
    | none => (result, st)

/-- `add_health_goal`, local fallback branch.  `uuid1`/`uuid2` stand for
the generated `uuid.uuid4()` values, `now` for `datetime.now().isoformat()`. -/
def addHealthGoalLocal (st : LocalState) (uuid1 uuid2 now : String)
    (goal_type : String) (target_value : Int) (description : Option String)
    (daily_calorie_goal : Option Int) : String × LocalState :=
  let g1 : Goal := ⟨uuid1, pyLower goal_type, target_value, 0, description, now, none⟩
  let st1 : LocalState := { st with health_goals := dictInsert st.health_goals uuid1 g1 }
  let result := "Health goal added successfully! (Local Storage)\n\nGoal: " ++
    pyTitle goal_type ++ "\nTarget: " ++ toString target_value ++ "\nGoal ID: " ++ uuid1
  match daily_calorie_goal with
  | some g =>
    if g = 0 then (result, st1)
    else
      let g2 : Goal :=
        ⟨uuid2, "daily_calories", g, 0, some "Daily calorie intake target", now, none⟩
      (result ++ "\n\nDaily Calorie Goal: " ++ toString g ++
        " calories\nCalorie Goal ID: " ++ uuid2,
       { st1 with health_goals := dictInsert st1.health_goals uuid2 g2 })
  | none => (result, st1)

/-- `update_health_goal`, remote branch. -/
def updateHealthGoalRemote (rm : Remote) (st : LocalState) (goal_id : String)
    (target_value current_value : Option Int) (description : Option String) :
    String × LocalState :=
  match rm.update_health_goal goal_id ⟨target_value, current_value, description⟩ with
  | .error e => ("Error updating health goal: " ++ e, st)
  | .ok true =>
    ("Health goal updated successfully!\n\nGoal ID: " ++ goal_id ++
      "\nUpdates applied successfully", st)
  | .ok false => ("Health goal " ++ goal_id ++ " not found or update failed", st)

/-- `update_health_goal`, local fallback branch: patch only the supplied
fields of the stored record in place. -/
def updateHealthGoalLocal (st : LocalState) (goal_id : String)
    (target_value current_value : Option Int) (description : Option String) :
    String × LocalState :=
  match dictGet st.health_goals goal_id with
  | none => ("Health goal " ++ goal_id ++ " not found", st)
  | some g =>
    let g' : Goal :=
      { g with
        target_value := target_value.getD g.target_value
        current_value := current_value.getD g.current_value
        description := match description with | some s => some s | none => g.description }
    ("Health goal updated successfully! (Local Storage)\n\nGoal: " ++
      pyTitle g'.goal_type ++ "\nTarget: " ++ toString g'.target_value ++
      "\nCurrent: " ++ toString g'.current_value,
     { st with health_goals :=
        st.health_goals.map (fun p => if p.1 = goal_id then (p.1, g') else p) })

/-- `get_health_goals`, remote branch (no `is_active` filter here; the
returned rows are rendered as-is). -/
def getHealthGoalsRemote (rm : Remote) (st : LocalState) : String × LocalState :=
  match rm.get_health_goals with
  | .error e => ("Error getting health goals: " ++ e, st)
  | .ok goals =>
    if goals.isEmpty then ("No active health goals found. Add a goal to get started!", st)
    else ("Active Health Goals\n\n" ++ String.join (goals.map renderGoalRemote), st)

/-- `get_health_goals`, local fallback branch. -/
def getHealthGoalsLocal (st : LocalState) : String × LocalState :=
  let active := activeGoals st
  if active.isEmpty then
    ("No active health goals found. Add a goal to get started! (Local Storage)", st)
  else
    ("Active Health Goals (Local Storage)\n\n" ++ String.join (active.map renderGoalLocal), st)

/-- `add_food_log`, remote branch.  The day total over remote rows reads
`calories` through `dict.get` with default 0 (absent keys). -/
def addFoodLogRemote (rm : Remote) (st : LocalState) (today : String)
    (meal_type food_item : String) (calories : Option Int) : String × LocalState :=
  match rm.add_food_log ⟨pyLower meal_type, food_item, calories, today⟩ with
  | .error e => ("Error adding food log: " ++ e, st)
  | .ok _ =>
    match rm.get_food_logs today with
    | .error e => ("Error adding food log: " ++ e, st)
    | .ok rows =>
      let total := rows.foldl (fun acc r => acc + r.calories.getD 0) 0
      let result := "Food logged successfully!\n\nMeal: " ++ pyTitle meal_type ++
        "\nFood: " ++ food_item ++ "\n" ++ calLine calories ++
        "\nToday's Total Calories: " ++ toString total
      (result ++ goalSectionRemote rm total, st)

/-- `add_food_log`, local fallback branch.  The entry is appended before
the day total is computed, so a raising sum still leaves it stored. -/
def addFoodLogLocal (st : LocalState) (uuid now today : String)
    (meal_type food_item : String) (calories : Option Int) : String × LocalState :=
  let entry : FoodEntry := ⟨uuid, pyLower meal_type, food_item, calories, today, now⟩
  let st' : LocalState := { st with food_logs := st.food_logs ++ [entry] }
  let today_foods := st'.food_logs.filter (·.date == today)
  match pySum today_foods with
  | none => ("Error adding food log: " ++ typeErrorMsg, st')
  | some total =>
    let result := "Food logged successfully! (Local Storage)\n\nMeal: " ++
      pyTitle meal_type ++ "\nFood: " ++ food_item ++ "\n" ++ calLine calories ++
      "\nToday's Total Calories: " ++ toString total
    (result ++ goalSectionLocal st.health_goals total, st')

/-- The meal grouping of `get_food_log`: a dict from meal type to the
entries in insertion order (new meal types appended at the end). -/
def insertGrouped : List (String × List FoodEntry) → FoodEntry →
    List (String × List FoodEntry)
  | [], f => [(f.meal_type, [f])]
  | p :: rest, f =>
      if p.1 = f.meal_type then (p.1, p.2 ++ [f]) :: rest
      else p :: insertGrouped rest f

/-- Renders the food lines of one meal and computes its calorie subtotal;
`none` models the `TypeError` raised when a stored `calories` is `None`. -/
def renderFoods : List FoodEntry → Option (String × Int)
  | [] => some ("", 0)
  | f :: rest =>
    match f.calories with
    | none => none
    | some c =>
      (renderFoods rest).map (fun p => ("  " ++ f.food_item ++ calSuffix f.calories ++ "\n" ++ p.1, c + p.2))

/-- Renders all meal blocks of `get_food_log` (local) and computes the
daily total; a raising subtotal discards everything. -/
def renderMeals : List (String × List FoodEntry) → Option (String × Int)
  | [] => some ("", 0)
  | (mt, foods) :: rest =>
    match renderFoods foods with
    | none => none
    | some (s, mc) =>
      (renderMeals rest).map (fun p =>
        (pyTitle mt ++ "\n" ++ s ++
          (if mc > 0 then "  Meal Total: " ++ toString mc ++ " calories\n" else "") ++
          "\n" ++ p.1, mc + p.2))

/-- `get_food_log`, local fallback branch. -/
def getFoodLogLocal (st : LocalState) (today : String) : String × LocalState :=
  let today_foods := st.food_logs.filter (·.date == today)
  if today_foods.isEmpty then ("No food logged today (Local Storage)", st)
  else
    match renderMeals (today_foods.foldl insertGrouped []) with
    | none => ("Error getting food log: " ++ typeErrorMsg, st)
    | some (body, total) =>
      ("Today's Food Log (Local Storage)\n\n" ++ body ++
        "Daily Total: " ++ toString total ++ " calories" ++
        goalSectionLocal st.health_goals total, st)

/-- Remote-row analogue of `insertGrouped`. -/
def insertGroupedR : List (String × List RFood) → RFood → List (String × List RFood)
  | [], f => [(f.meal_type, [f])]
  | p :: rest, f =>
      if p.1 = f.meal_type then (p.1, p.2 ++ [f]) :: rest
      else p :: insertGroupedR rest f

/-- Remote-row analogue of `renderFoods` (absent calories default to 0,
so no `TypeError` path). -/
def renderFoodsR : List RFood → String × Int
  | [] => ("", 0)
  | f :: rest =>
    let p := renderFoodsR rest
    ("  " ++ f.food_item ++ calSuffix f.calories ++ "\n" ++ p.1, f.calories.getD 0 + p.2)

/-- Remote-row analogue of `renderMeals`. -/
def renderMealsR : List (String × List RFood) → String × Int
  | [] => ("", 0)
  | (mt, foods) :: rest =>
    let (s, mc) := renderFoodsR foods
    let p := renderMealsR rest
    (pyTitle mt ++ "\n" ++ s ++
      (if mc > 0 then "  Meal Total: " ++ toString mc ++ " calories\n" else "") ++
      "\n" ++ p.1, mc + p.2)

/-- `get_food_log`, remote branch. -/
def getFoodLogRemote (rm : Remote) (st : LocalState) (today : String) :
    String × LocalState :=
  match rm.get_food_logs today with
  | .error e => ("Error getting food log: " ++ e, st)
  | .ok rows =>
    if rows.isEmpty then ("No food logged today", st)
    else
      let p := renderMealsR (rows.foldl insertGroupedR [])
      ("Today's Food Log\n\n" ++ p.1 ++
        "Daily Total: " ++ toString p.2 ++ " calories" ++
        goalSectionRemote rm p.2, st)

/-! ## The tool surface: per-call backend dispatch on `is_connected()` -/

/-- `add_health_goal` tool: `conn` is this call's `is_connected()` result. -/
def add_health_goal (conn : Bool) (rm : Remote) (st : LocalState)
    (uuid1 uuid2 now : String) (goal_type : String) (target_value : Int)
    (description : Option String) (daily_calorie_goal : Option Int) :
    String × LocalState :=
  if conn then addHealthGoalRemote rm st goal_type target_value description daily_calorie_goal
  else addHealthGoalLocal st uuid1 uuid2 now goal_type target_value description daily_calorie_goal

/-- `update_health_goal` tool. -/
def update_health_goal (conn : Bool) (rm : Remote) (st : LocalState)
    (goal_id : String) (target_value current_value : Option Int)
    (description : Option String) : String × LocalState :=
  if conn then updateHealthGoalRemote rm st goal_id target_value current_value description
  else updateHealthGoalLocal st goal_id target_value current_value description

/-- `get_health_goals` tool. -/
def get_health_goals (conn : Bool) (rm : Remote) (st : LocalState) :
    String × LocalState :=
  if conn then getHealthGoalsRemote rm st else getHealthGoalsLocal st

/-- `add_food_log` tool. -/
def add_food_log (conn : Bool) (rm : Remote) (st : LocalState)
    (uuid now today : String) (meal_type food_item : String)
    (calories : Option Int) : String × LocalState :=
  if conn then addFoodLogRemote rm st today meal_type food_item calories
  else addFoodLogLocal st uuid now today meal_type food_item calories

/-- `get_food_log` tool. -/
def get_food_log (conn : Bool) (rm : Remote) (st : LocalState) (today : String) :
    String × LocalState :=
  if conn then getFoodLogRemote rm st today else getFoodLogLocal st today

/-! ## Sessions: sequences of tool calls within one process -/

/-- One tool invocation with its arguments (generated ids and timestamps
made explicit). -/
inductive ToolCall where
  | addGoal (uuid1 uuid2 now goal_type : String) (target_value : Int)
      (description : Option String) (daily_calorie_goal : Option Int)
  | updGoal (goal_id : String) (target_value current_value : Option Int)
      (description : Option String)
  | getGoals
  | addFood (uuid now today meal_type food_item : String) (calories : Option Int)
  | getFood (today : String)
  deriving Repr

/-- Servicing a call entirely on the remote backend. -/
def serveRemote (rm : Remote) (st : LocalState) : ToolCall → String × LocalState
  | .addGoal _ _ _ gt tv d dcg => addHealthGoalRemote rm st gt tv d dcg
  | .updGoal gid tv cv d => updateHealthGoalRemote rm st gid tv cv d
  | .getGoals => getHealthGoalsRemote rm st
  | .addFood _ _ today mt fi c => addFoodLogRemote rm st today mt fi c
  | .getFood today => getFoodLogRemote rm st today

/-- Servicing a call entirely on the local backend. -/
def serveLocal (st : LocalState) : ToolCall → String × LocalState
  | .addGoal u1 u2 now gt tv d dcg => addHealthGoalLocal st u1 u2 now gt tv d dcg
  | .updGoal gid tv cv d => updateHealthGoalLocal st gid tv cv d
  | .getGoals => getHealthGoalsLocal st
  | .addFood u now today mt fi c => addFoodLogLocal st u now today mt fi c
  | .getFood today => getFoodLogLocal st today

/-- One call: the backend is chosen by this call's own `is_connected()`
value, exactly as each operation branches at its top. -/
def runCall (conn : Bool) (rm : Remote) (st : LocalState) (c : ToolCall) :
    String × LocalState :=
  if conn then serveRemote rm st c else serveLocal st c

/-- A whole session: each call carries its own connectivity observation. -/
def runSession (rm : Remote) : LocalState → List (Bool × ToolCall) →
    List String × LocalState
  | st, [] => ([], st)
  | st, (b, c) :: rest =>
    let r := runCall b rm st c
    let rs := runSession rm r.2 rest
    (r.1 :: rs.1, rs.2)

/-- Substring containment on strings (via char-list infixes). -/
def sContains (hay needle : String) : Prop := needle.data <:+: hay.data

instance (hay needle : String) : Decidable (sContains hay needle) := by
  unfold sContains; infer_instance

/-- Calorie total of a grouped day, as `get_food_log` accumulates it:
the sum of the per-meal subtotals, raising if any subtotal raises. -/
def sumGroups : List (String × List FoodEntry) → Option Int
  | [] => some 0
  | g :: rest => addOpt (pySumR g.2) (sumGroups rest)

/-- A remote oracle whose every call raises (connectivity is a separate
per-call flag, so this also serves as the "unused" oracle of local runs). -/
def rm0 : Remote :=
  ⟨fun _ => .error "down", fun _ _ => .error "down", .error "down",
   fun _ => .error "down", fun _ => .error "down"⟩

/-- The initial process state: empty goal dict, empty food-log list. -/
def st0 : LocalState := ⟨[], []⟩

/-! ## Concrete scenarios referenced by the claim theorems -/

/-- C1 scenario, first call: breakfast with 100 calories. -/
def c1_step1 : String × LocalState :=
  add_food_log false rm0 st0 "id-1" "t1" "2026-10-12" "breakfast" "oatmeal" (some 100)

/-- C1 scenario, second call: lunch with 150 calories. -/
def c1_step2 : String × LocalState :=
  add_food_log false rm0 c1_step1.2 "id-2" "t2" "2026-10-12" "lunch" "salad" (some 150)

/-- C1 scenario, third call: dinner with the calories argument absent. -/
def c1_step3 : String × LocalState :=
  add_food_log false rm0 c1_step2.2 "id-3" "t3" "2026-10-12" "dinner" "soup" none

/-- An active daily-calorie goal with target 2000 (C4 scenario). -/
def goalC4 : Goal := ⟨"g1", "daily_calories", 2000, 0, none, "t0", none⟩

/-- 2400 calories already logged today (C4 `add_food_log` scenario). -/
def stC4 : LocalState :=
  ⟨[("g1", goalC4)], [⟨"f1", "lunch", "pasta", some 2400, "2026-10-12", "t1"⟩]⟩

/-- 2500 calories logged today (C4 `get_food_log` scenario). -/
def stC4get : LocalState :=
  ⟨[("g1", goalC4)],
   [⟨"f1", "lunch", "pasta", some 2400, "2026-10-12", "t1"⟩,
    ⟨"f2", "dinner", "cake", some 100, "2026-10-12", "t2"⟩]⟩

/-- A listed active goal with a negative target and nonzero current value
(C5 counterexample; reachable by `add_health_goal` then `update_health_goal`). -/
def goalC5 : Goal := ⟨"g5", "weight", -5, 10, none, "t0", none⟩

def stC5 : LocalState := ⟨[("g5", goalC5)], []⟩

/-- A remote oracle whose food calls succeed but whose goal listing
raises (C7 counterexample: the inner goal-check `except: pass`). -/
def rmC7 : Remote :=
  ⟨fun _ => .ok "gid-r", fun _ _ => .ok true, .error "boom",
   fun _ => .ok "fid-r", fun _ => .ok [⟨"lunch", "apple", some 100⟩]⟩

/-- A remote oracle reporting `False` from `update_health_goal`
(the unknown-id outcome of the external store), C2 witness. -/
def rmNF : Remote :=
  ⟨fun _ => .ok "x", fun _ _ => .ok false, .ok [], fun _ => .ok "x", fun _ => .ok []⟩

/-- A remote oracle returning distinct generated ids for the main and the
daily-calorie goal payloads (C3 witness). -/
def rmIds : Remote :=
  ⟨fun p => .ok (if p.goal_type == "daily_calories" then "cid-1" else "gid-1"),
   fun _ _ => .ok true, .ok [], fun _ => .ok "f", fun _ => .ok []⟩

/-- A food entry logged with calories explicitly 0 (C10). -/
def e10z : FoodEntry := ⟨"f1", "lunch", "apple", some 0, "d1", "t1"⟩

/-- The same entry logged with the calories argument absent (C10). -/
def e10n : FoodEntry := ⟨"f1", "lunch", "apple", none, "d1", "t1"⟩

def st10z : LocalState := ⟨[], [e10z]⟩

def st10n : LocalState := ⟨[], [e10n]⟩

/-- An existing goal carrying an explicit `is_active := False` key and an
existing food entry (C9 witness state). -/
def stC9 : LocalState :=
  ⟨[("a", ⟨"a", "weight", 70, 5, none, "t0", some false⟩)],
   [⟨"f0", "lunch", "rice", some 300, "2026-10-11", "t0"⟩]⟩

/-! ## General lemmas -/

theorem data_append (a b : String) : (a ++ b).data = a.data ++ b.data := by
  cases a; cases b; rfl

theorem sContains_of_data (hay needle : String) (pre post : List Char)
    (e : hay.data = pre ++ needle.data ++ post) : sContains hay needle :=
  ⟨pre, post, e.symm⟩

theorem append_empty_str (a : String) : a ++ "" = a := by
  apply String.ext; simp [data_append]

theorem addOpt_zero_left (x : Option Int) : addOpt (some 0) x = x := by
  cases x <;> simp [addOpt]

theorem addOpt_zero_right (x : Option Int) : addOpt x (some 0) = x := by
  cases x <;> simp [addOpt]

theorem addOpt_assoc (a b c : Option Int) :
    addOpt (addOpt a b) c = addOpt a (addOpt b c) := by
  cases a <;> cases b <;> cases c <;> simp [addOpt] <;> omega

theorem addOpt_comm (a b : Option Int) : addOpt a b = addOpt b a := by
  cases a <;> cases b <;> simp [addOpt] <;> omega

theorem addOpt_right_comm (a b c : Option Int) :
    addOpt (addOpt a b) c = addOpt (addOpt a c) b := by
  rw [addOpt_assoc, addOpt_comm b c, ← addOpt_assoc]

theorem pySum_go (l : List FoodEntry) :
    ∀ acc, l.foldl (fun acc f => addOpt acc f.calories) acc = addOpt acc (pySumR l) := by
  induction l with
  | nil => intro acc; simp [pySumR, addOpt_zero_right]
  | cons f rest ih =>
      intro acc
      simp only [List.foldl_cons, pySumR, ih, addOpt_assoc]

theorem pySum_eq_pySumR (l : List FoodEntry) : pySum l = pySumR l := by
  simpa [pySum, addOpt_zero_left] using pySum_go l (some 0)

theorem pySumR_append (a b : List FoodEntry) :
    pySumR (a ++ b) = addOpt (pySumR a) (pySumR b) := by
  induction a with
  | nil => simp [pySumR, addOpt_zero_left]
  | cons f rest ih => simp [pySumR, ih, addOpt_assoc]

theorem pySumR_none_of_mem {l : List FoodEntry} {f : FoodEntry}
    (hf : f ∈ l) (hc : f.calories = none) : pySumR l = none := by
  induction l with
  | nil => cases hf
  | cons g rest ih =>
      rcases List.mem_cons.mp hf with h | h
      · subst h; simp [pySumR, hc, addOpt]
      · cases hg : g.calories <;> simp [pySumR, hg, addOpt, ih h]

theorem renderFoods_total (l : List FoodEntry) :
    (renderFoods l).map (·.2) = pySumR l := by
  induction l with
  | nil => simp [renderFoods, pySumR]
  | cons f rest ih =>
      cases hc : f.calories with
      | none => simp [renderFoods, pySumR, hc, addOpt]
      | some c =>
          cases hr : renderFoods rest with
          | none => simp [renderFoods, pySumR, hc, hr, addOpt, ← ih]
          | some p => simp [renderFoods, pySumR, hc, hr, addOpt, ← ih]

theorem renderMeals_total (gs : List (String × List FoodEntry)) :
    (renderMeals gs).map (·.2) = sumGroups gs := by
  induction gs with
  | nil => simp [renderMeals, sumGroups]
  | cons g rest ih =>
      obtain ⟨mt, foods⟩ := g
      cases hf : renderFoods foods with
      | none =>
          have := renderFoods_total foods
          rw [hf] at this
          simp [renderMeals, sumGroups, hf, ← this, addOpt]
      | some p =>
          have := renderFoods_total foods
          rw [hf] at this
          cases hr : renderMeals rest with
          | none =>
              rw [hr] at ih
              simp [renderMeals, sumGroups, hf, hr, ← this, ← ih, addOpt]
          | some q =>
              rw [hr] at ih
              simp [renderMeals, sumGroups, hf, hr, ← this, ← ih, addOpt]

theorem sumGroups_insert (gs : List (String × List FoodEntry)) (f : FoodEntry) :
    sumGroups (insertGrouped gs f) = addOpt (sumGroups gs) f.calories := by
  induction gs with
  | nil =>
      simp [insertGrouped, sumGroups, pySumR, addOpt_zero_right, addOpt_zero_left,
        addOpt_comm]
  | cons p rest ih =>
      by_cases h : p.1 = f.meal_type
      · simp only [insertGrouped, if_pos h, sumGroups, pySumR_append, pySumR,
          addOpt_zero_right, addOpt_right_comm]
      · simp only [insertGrouped, if_neg h, sumGroups, ih, ← addOpt_assoc]

theorem sumGroups_foldl (l : List FoodEntry) :
    ∀ gs, sumGroups (l.foldl insertGrouped gs) = addOpt (sumGroups gs) (pySumR l) := by
  induction l with
  | nil => intro gs; simp [pySumR, addOpt_zero_right]
  | cons f rest ih =>
      intro gs
      simp only [List.foldl_cons, pySumR, ih, sumGroups_insert, addOpt_assoc]

theorem grouped_total (l : List FoodEntry) :
    sumGroups (l.foldl insertGrouped []) = pySumR l := by
  simpa [sumGroups, addOpt_zero_left] using sumGroups_foldl l []

theorem dictGet_dictInsert_self (d : List (String × Goal)) (k : String) (v : Goal) :
    dictGet (dictInsert d k v) k = some v := by
  induction d with
  | nil => simp [dictInsert, dictGet]
  | cons p rest ih => by_cases h : p.1 = k <;> simp [dictInsert, dictGet, h, ih]

theorem dictGet_dictInsert_ne (d : List (String × Goal)) {k k' : String} (v : Goal)
    (h : k' ≠ k) : dictGet (dictInsert d k' v) k = dictGet d k := by
  induction d with
  | nil => simp [dictInsert, dictGet, h]
  | cons p rest ih =>
      by_cases hp : p.1 = k'
      · simp [dictInsert, dictGet, hp, h, Ne.symm h, ih]
      · by_cases hk : p.1 = k <;> simp [dictInsert, dictGet, hp, hk, Ne.symm h, ih]

theorem dictGet_patch (d : List (String × Goal)) (gid : String) (g' : Goal)
    (k : String) :
    dictGet (d.map fun p => if p.1 = gid then (p.1, g') else p) k
      = if k = gid then (dictGet d k).map (fun _ => g') else dictGet d k := by
  induction d with
  | nil => by_cases h : k = gid <;> simp [dictGet, h]
  | cons p rest ih =>
      simp only [List.map_cons]
      by_cases hp : p.1 = gid
      · rw [if_pos hp]
        by_cases hk : p.1 = k
        · have hkg : k = gid := by rw [← hk, hp]
          subst hkg
          simp [dictGet, hk]
        · have hkg : ¬ k = gid := fun e => hk (by rw [hp, ← e])
          simp [dictGet, hk, hkg, ih]
      · rw [if_neg hp]
        by_cases hk : p.1 = k
        · have hkg : ¬ k = gid := fun e => hp (by rw [hk, e])
          simp [dictGet, hk, hkg]
        · simp [dictGet, hk, ih]

theorem str_append_assoc (a b c : String) : (a ++ b) ++ c = a ++ (b ++ c) := by
  apply String.ext; simp [data_append, List.append_assoc]

theorem sContains_refl (n : String) : sContains n n :=
  ⟨[], [], by simp⟩

theorem sContains_appL {a : String} (b : String) {n : String}
    (h : sContains a n) : sContains (a ++ b) n := by
  obtain ⟨pre, post, e⟩ := h
  exact ⟨pre, post ++ b.data, by rw [data_append, ← e]; simp [List.append_assoc]⟩

theorem sContains_appR (a : String) {b n : String}
    (h : sContains b n) : sContains (a ++ b) n := by
  obtain ⟨pre, post, e⟩ := h
  exact ⟨a.data ++ pre, post, by rw [data_append, ← e]; simp [List.append_assoc]⟩

/-! ## Claims -/

/-- Claim C1 (code bug): on the local backend, logging entries with
calories 100, 150 and absent on the same day does not yield a reported
total of 250.  The local store keeps the `calories` key with value `None`,
so `f.get("calories", 0)` returns `None` (the default never fires), the
day-total `sum` raises `TypeError`, and the third call (and any later
`get_food_log` for that day) returns the catch-all error string instead.
The first two calls do total 100 and 250 as the spec expects. -/
theorem C1_absent_calories_type_error :
    c1_step1.1 = "Food logged successfully! (Local Storage)\n\nMeal: Breakfast\nFood: oatmeal\nCalories: 100\n\nToday's Total Calories: 100"
    ∧ c1_step2.1 = "Food logged successfully! (Local Storage)\n\nMeal: Lunch\nFood: salad\nCalories: 150\n\nToday's Total Calories: 250"
    ∧ c1_step3.1 = "Error adding food log: " ++ typeErrorMsg
    ∧ (get_food_log false rm0 c1_step3.2 "2026-10-12").1
        = "Error getting food log: " ++ typeErrorMsg :=
  ⟨by decide, by decide, by decide, by decide⟩

/-- Claim C2: `update_health_goal` on an id that is not present returns the
not-found text and leaves the state unchanged (no record is created).  On
the local backend "not present" is `goal_id not in health_goals`; on the
remote backend it is the store's `False` result, and the local structures
are untouched either way. -/
theorem C2_update_unknown_id (rm : Remote) (st : LocalState) (gid : String)
    (tv cv : Option Int) (d : Option String) :
    (dictGet st.health_goals gid = none →
      update_health_goal false rm st gid tv cv d
        = ("Health goal " ++ gid ++ " not found", st))
    ∧ (rm.update_health_goal gid ⟨tv, cv, d⟩ = .ok false →
      update_health_goal true rm st gid tv cv d
        = ("Health goal " ++ gid ++ " not found or update failed", st)) := by
  constructor
  · intro h
    simp [update_health_goal, updateHealthGoalLocal, h]
  · intro h
    simp [update_health_goal, updateHealthGoalRemote, h]

theorem C2_update_unknown_id_witness :
    dictGet st0.health_goals "nope" = none
    ∧ update_health_goal false rm0 st0 "nope" none none none
        = ("Health goal " ++ "nope" ++ " not found", st0)
    ∧ update_health_goal true rmNF st0 "nope" none none none
        = ("Health goal " ++ "nope" ++ " not found or update failed", st0) :=
  ⟨rfl, (C2_update_unknown_id rm0 st0 "nope" none none none).1 rfl,
   (C2_update_unknown_id rmNF st0 "nope" none none none).2 rfl⟩

/-- Claim C3 refuted as stated: `add_health_goal` guards the second goal
with bare truthiness (`if daily_calorie_goal:`), so the supplied value 0
creates no second goal and no second identifier appears, on either
backend.  Here only one goal is stored and the confirmation has no
`Calorie Goal ID` line. -/
theorem C3_zero_daily_calorie_goal_cex :
    (add_health_goal false rm0 st0 "u1" "u2" "t0" "weight" 70 none (some 0)).2.health_goals.length = 1
    ∧ dictGet (add_health_goal false rm0 st0 "u1" "u2" "t0" "weight" 70 none (some 0)).2.health_goals "u2" = none
    ∧ ¬ sContains (add_health_goal false rm0 st0 "u1" "u2" "t0" "weight" 70 none (some 0)).1 "Calorie Goal ID"
    ∧ (add_health_goal true rmIds st0 "u1" "u2" "t0" "weight" 70 none (some 0)).1
        = "Health goal added successfully!\n\nGoal: Weight\nTarget: 70\nGoal ID: gid-1" :=
  ⟨by decide, by decide, by decide, by decide⟩

/-- Claim C3 amended: for every supplied nonzero `daily_calorie_goal`,
`add_health_goal` creates a second goal of type `daily_calories` in the
same call and the confirmation text contains both generated identifiers
(a supplied value of 0 is falsy and is treated as absent). -/
theorem C3_nonzero_calorie_goal (rm : Remote) (st : LocalState)
    (u1 u2 now gt : String) (tv g : Int) (d : Option String)
    (hg : g ≠ 0) (hu : u1 ≠ u2) :
    (sContains (add_health_goal false rm st u1 u2 now gt tv d (some g)).1 u1
     ∧ sContains (add_health_goal false rm st u1 u2 now gt tv d (some g)).1 u2
     ∧ dictGet (add_health_goal false rm st u1 u2 now gt tv d (some g)).2.health_goals u1
         = some ⟨u1, pyLower gt, tv, 0, d, now, none⟩
     ∧ dictGet (add_health_goal false rm st u1 u2 now gt tv d (some g)).2.health_goals u2
         = some ⟨u2, "daily_calories", g, 0, some "Daily calorie intake target", now, none⟩)
    ∧ (∀ i1 i2, rm.add_health_goal ⟨pyLower gt, tv, 0, d.getD "", true⟩ = .ok i1 →
        rm.add_health_goal ⟨"daily_calories", g, 0, "Daily calorie intake target", true⟩ = .ok i2 →
        sContains (add_health_goal true rm st u1 u2 now gt tv d (some g)).1 i1
        ∧ sContains (add_health_goal true rm st u1 u2 now gt tv d (some g)).1 i2) := by
  refine ⟨⟨?_, ?_, ?_, ?_⟩, ?_⟩
  · exact sContains_of_data _ _
      ("Health goal added successfully! (Local Storage)\n\nGoal: " ++ pyTitle gt ++
        "\nTarget: " ++ toString tv ++ "\nGoal ID: ").data
      ("\n\nDaily Calorie Goal: " ++ toString g ++ " calories\nCalorie Goal ID: " ++ u2).data
      (by simp [add_health_goal, addHealthGoalLocal, hg, data_append, List.append_assoc])
  · exact sContains_of_data _ _
      ("Health goal added successfully! (Local Storage)\n\nGoal: " ++ pyTitle gt ++
        "\nTarget: " ++ toString tv ++ "\nGoal ID: " ++ u1 ++
        "\n\nDaily Calorie Goal: " ++ toString g ++ " calories\nCalorie Goal ID: ").data
      []
      (by simp [add_health_goal, addHealthGoalLocal, hg, data_append, List.append_assoc])
  · simp only [add_health_goal, addHealthGoalLocal, if_neg hg, Bool.false_eq_true,
      if_false]
    rw [dictGet_dictInsert_ne _ _ (Ne.symm hu), dictGet_dictInsert_self]
  · simp only [add_health_goal, addHealthGoalLocal, if_neg hg, Bool.false_eq_true,
      if_false]
    rw [dictGet_dictInsert_self]
  · intro i1 i2 h1 h2
    constructor
    · exact sContains_of_data _ _
        ("Health goal added successfully!\n\nGoal: " ++ pyTitle gt ++
          "\nTarget: " ++ toString tv ++ "\nGoal ID: ").data
        ("\n\nDaily Calorie Goal: " ++ toString g ++ " calories\nCalorie Goal ID: " ++ i2).data
        (by simp [add_health_goal, addHealthGoalRemote, h1, h2, hg, data_append,
          List.append_assoc])
    · exact sContains_of_data _ _
        ("Health goal added successfully!\n\nGoal: " ++ pyTitle gt ++
          "\nTarget: " ++ toString tv ++ "\nGoal ID: " ++ i1 ++
          "\n\nDaily Calorie Goal: " ++ toString g ++ " calories\nCalorie Goal ID: ").data
        []
        (by simp [add_health_goal, addHealthGoalRemote, h1, h2, hg, data_append,
          List.append_assoc])

theorem C3_nonzero_calorie_goal_witness :
    ((2000 : Int) ≠ 0) ∧ ("u1" : String) ≠ "u2"
    ∧ sContains (add_health_goal false rm0 st0 "u1" "u2" "t0" "weight" 70 none (some 2000)).1 "u1"
    ∧ sContains (add_health_goal false rm0 st0 "u1" "u2" "t0" "weight" 70 none (some 2000)).1 "u2"
    ∧ sContains (add_health_goal true rmIds st0 "u1" "u2" "t0" "weight" 70 none (some 2000)).1 "gid-1"
    ∧ sContains (add_health_goal true rmIds st0 "u1" "u2" "t0" "weight" 70 none (some 2000)).1 "cid-1" := by
  have h := C3_nonzero_calorie_goal rm0 st0 "u1" "u2" "t0" "weight" 70 2000 none
    (by decide) (by decide)
  have hr := C3_nonzero_calorie_goal rmIds st0 "u1" "u2" "t0" "weight" 70 2000 none
    (by decide) (by decide)
  have hrr := hr.2 "gid-1" "cid-1" rfl rfl
  exact ⟨by decide, by decide, h.1.1, h.1.2.1, hrr.1, hrr.2⟩

/-- The over-budget tail of the goal commentary at target 2000 and total
2500: `remaining = -500`, so the `abs(remaining)` branch prints 500. -/
theorem overSection_2000_2500 :
    sContains (goalSectionText 2000 2500) "Over goal by: 500 calories" := by
  simp only [goalSectionText]
  rw [if_neg (by decide : ¬ ((2000 : Int) - 2500 > 0))]
  apply sContains_appR
  decide

/-- Claim C4: when the daily-calorie goal the local branch consults (the
first `daily_calories` goal of the store) has target 2000 and the logged
day total is 2500, both `add_food_log` (total after the insert) and
`get_food_log` report `Over goal by: 500 calories`, i.e. the absolute
value of target minus total. -/
theorem C4_over_budget_500 (rm : Remote) (st : LocalState)
    (u now today mt fi : String) (c : Option Int)
    (hgoal : ((st.health_goals.map (·.2)).find? (fun g => g.goal_type == "daily_calories")).map
        (·.target_value) = some 2000) :
    (pySum ((st.food_logs ++ [(⟨u, pyLower mt, fi, c, today, now⟩ : FoodEntry)]).filter
        (·.date == today)) = some 2500 →
      sContains (add_food_log false rm st u now today mt fi c).1 "Over goal by: 500 calories")
    ∧ (pySum (st.food_logs.filter (·.date == today)) = some 2500 →
      sContains (get_food_log false rm st today).1 "Over goal by: 500 calories") := by
  obtain ⟨g, hfind, htv⟩ := Option.map_eq_some'.mp hgoal
  constructor
  · intro hsum
    simp only [add_food_log, Bool.false_eq_true, if_false, addFoodLogLocal, hsum]
    simp only [goalSectionLocal, hfind, htv]
    rw [if_neg (by decide : ¬ ((2000 : Int) = 0))]
    exact sContains_appR _ overSection_2000_2500
  · intro hsum
    have hne : (st.food_logs.filter (·.date == today)).isEmpty = false := by
      rcases h : st.food_logs.filter (·.date == today) with _ | ⟨f, rest⟩
      · rw [h] at hsum
        exact absurd hsum (by decide)
      · rw [h]; rfl
    have htot : (renderMeals ((st.food_logs.filter (·.date == today)).foldl
        insertGrouped [])).map (·.2) = some 2500 := by
      rw [renderMeals_total, grouped_total, ← pySum_eq_pySumR, hsum]
    obtain ⟨p, hp⟩ : ∃ p, renderMeals ((st.food_logs.filter (·.date == today)).foldl
        insertGrouped []) = some p := by
      cases hrm : renderMeals ((st.food_logs.filter (·.date == today)).foldl insertGrouped [])
      · rw [hrm] at htot; exact absurd htot (by simp)
      · exact ⟨_, rfl⟩
    obtain ⟨body, total⟩ := p
    have hp2 : total = 2500 := by
      rw [hp] at htot; simpa using htot
    subst hp2
    simp only [get_food_log, Bool.false_eq_true, if_false, getFoodLogLocal, hne, hp]
    simp only [goalSectionLocal, hfind, htv]
    rw [if_neg (by decide : ¬ ((2000 : Int) = 0))]
    exact sContains_appR _ overSection_2000_2500

theorem C4_over_budget_500_witness :
    sContains (add_food_log false rm0 stC4 "f2" "t2" "2026-10-12" "dinner" "cake" (some 100)).1
      "Over goal by: 500 calories"
    ∧ sContains (get_food_log false rm0 stC4get "2026-10-12").1 "Over goal by: 500 calories" :=
  ⟨(C4_over_budget_500 rm0 stC4 "f2" "t2" "2026-10-12" "dinner" "cake" (some 100)
      (by decide)).1 (by decide),
   (C4_over_budget_500 rm0 stC4get "x" "tx" "2026-10-12" "snack" "x" none
      (by decide)).2 (by decide)⟩

/-- Claim C5 refuted as stated: the listing guard is `target_value > 0`,
so for a listed active goal with a negative target (reachable via
`add_health_goal` then `update_health_goal`) the derived progress is 0 and
not `current/target × 100` (which is −200 here).  Only the `target = 0`
part of the claim matches the code. -/
theorem C5_negative_target_cex :
    goalC5 ∈ activeGoals stC5
    ∧ progressOf goalC5 = 0
    ∧ ((goalC5.current_value : ℚ) / (goalC5.target_value : ℚ)) * 100 = -200
    ∧ progressOf goalC5 ≠ ((goalC5.current_value : ℚ) / (goalC5.target_value : ℚ)) * 100 := by
  refine ⟨by decide, ?_, ?_, ?_⟩
  · simp [progressOf, goalC5]
  · norm_num [goalC5]
  · simp [progressOf, goalC5]

/-- Claim C5 amended: for every goal listed by `get_health_goals`, the
derived progress equals `current_value / target_value × 100` whenever
`target_value > 0`, and is guarded to 0 whenever `target_value ≤ 0` —
including the claim's `target_value = 0` case, whose division branch is
never executed (but also for negative targets, which the claim's formula
clause does not cover). -/
theorem C5_progress_guard (st : LocalState) (g : Goal) (hmem : g ∈ activeGoals st) :
    (0 < g.target_value →
      progressOf g = ((g.current_value : ℚ) / (g.target_value : ℚ)) * 100)
    ∧ (g.target_value ≤ 0 → progressOf g = 0) := by
  constructor
  · intro h
    simp [progressOf, h]
  · intro h
    simp [progressOf, not_lt.mpr h]

theorem C5_progress_guard_witness :
    goalC4 ∈ activeGoals stC4
    ∧ (0 : Int) < goalC4.target_value
    ∧ progressOf goalC4 = ((goalC4.current_value : ℚ) / (goalC4.target_value : ℚ)) * 100
    ∧ goalC5.target_value ≤ 0
    ∧ progressOf goalC5 = 0 :=
  ⟨by decide, by decide,
   (C5_progress_guard stC4 goalC4 (by decide)).1 (by decide),
   by decide,
   (C5_progress_guard stC5 goalC5 (by decide)).2 (by decide)⟩

theorem mem_values_of_dictGet {d : List (String × Goal)} {k : String} {g : Goal}
    (h : dictGet d k = some g) : g ∈ d.map (·.2) := by
  induction d with
  | nil => cases h
  | cons p rest ih =>
      by_cases hp : p.1 = k
      · simp only [dictGet, if_pos hp, Option.some.injEq] at h
        simp [← h]
      · simp only [dictGet, if_neg hp] at h
        simp [ih h]

/-- Claim C6: on the local backend, `add_health_goal` followed by
`get_health_goals` shows the new goal: it is stored under its fresh id
with `current_value = 0`, it belongs to the active list the listing
renders, and its derived progress is 0%. -/
theorem C6_new_goal_progress_zero (rm : Remote) (st : LocalState)
    (u1 u2 now gt : String) (tv : Int) (d : Option String) (dcg : Option Int)
    (hu : u1 ≠ u2) :
    dictGet ((add_health_goal false rm st u1 u2 now gt tv d dcg).2).health_goals u1
        = some ⟨u1, pyLower gt, tv, 0, d, now, none⟩
    ∧ (⟨u1, pyLower gt, tv, 0, d, now, none⟩ : Goal)
        ∈ activeGoals (add_health_goal false rm st u1 u2 now gt tv d dcg).2
    ∧ (⟨u1, pyLower gt, tv, 0, d, now, none⟩ : Goal).current_value = 0
    ∧ progressOf ⟨u1, pyLower gt, tv, 0, d, now, none⟩ = 0 := by
  have hget : dictGet ((add_health_goal false rm st u1 u2 now gt tv d dcg).2).health_goals u1
      = some ⟨u1, pyLower gt, tv, 0, d, now, none⟩ := by
    rcases dcg with _ | g
    · simp only [add_health_goal, Bool.false_eq_true, if_false, addHealthGoalLocal]
      exact dictGet_dictInsert_self _ _ _
    · by_cases hg : g = 0
      · simp only [add_health_goal, Bool.false_eq_true, if_false, addHealthGoalLocal,
          if_pos hg]
        exact dictGet_dictInsert_self _ _ _
      · simp only [add_health_goal, Bool.false_eq_true, if_false, addHealthGoalLocal,
          if_neg hg]
        rw [dictGet_dictInsert_ne _ _ (Ne.symm hu)]
        exact dictGet_dictInsert_self _ _ _
  refine ⟨hget, ?_, rfl, ?_⟩
  · exact List.mem_filter.mpr ⟨mem_values_of_dictGet hget, rfl⟩
  · by_cases h : (0 : Int) < tv
    · simp [progressOf, h]
    · simp [progressOf, h]

theorem C6_new_goal_progress_zero_witness :
    ("u1" : String) ≠ "u2"
    ∧ (⟨"u1", pyLower "weight", 70, 0, none, "t0", none⟩ : Goal)
        ∈ activeGoals (add_health_goal false rm0 st0 "u1" "u2" "t0" "weight" 70 none (some 2000)).2
    ∧ progressOf ⟨"u1", pyLower "weight", 70, 0, none, "t0", none⟩ = 0 := by
  have h := C6_new_goal_progress_zero rm0 st0 "u1" "u2" "t0" "weight" 70 none (some 2000)
    (by decide)
  exact ⟨by decide, h.2.1, h.2.2.2⟩

/-- With the remote backend selected, every operation returns the local
state unchanged (every branch of every remote path pairs its text with
the incoming state). -/
theorem remote_ops_preserve_local (rm : Remote) (st : LocalState)
    (u1 u2 now today gt mt fi gid : String) (tv : Int)
    (d desc : Option String) (tvo cvo dcg c : Option Int) :
    (add_health_goal true rm st u1 u2 now gt tv d dcg).2 = st
    ∧ (update_health_goal true rm st gid tvo cvo desc).2 = st
    ∧ (get_health_goals true rm st).2 = st
    ∧ (add_food_log true rm st u1 now today mt fi c).2 = st
    ∧ (get_food_log true rm st today).2 = st := by
  refine ⟨?_, ?_, ?_, ?_, ?_⟩
  · simp only [add_health_goal, if_true]
    unfold addHealthGoalRemote
    repeat' split
    all_goals rfl
  · simp only [update_health_goal, if_true]
    unfold updateHealthGoalRemote
    repeat' split
    all_goals rfl
  · simp only [get_health_goals, if_true]
    unfold getHealthGoalsRemote
    repeat' split
    all_goals rfl
  · simp only [add_food_log, if_true]
    unfold addFoodLogRemote
    repeat' split
    all_goals rfl
  · simp only [get_food_log, if_true]
    unfold getFoodLogRemote
    repeat' split
    all_goals rfl

/-- Claim C7 refuted as stated: with the remote backend selected, a raise
from the remote goal-listing call inside `add_food_log`'s goal check is
swallowed by the inner `except: pass`; the operation returns the normal
success text, not a descriptive error string (the no-fallback and
unchanged-local-state parts of the claim do hold, see the amended
theorem). -/
theorem C7_swallowed_goal_check_cex :
    rmC7.get_health_goals = .error "boom"
    ∧ (add_food_log true rmC7 st0 "u1" "t1" "2026-10-12" "lunch" "apple" (some 100)).1
        = "Food logged successfully!\n\nMeal: Lunch\nFood: apple\nCalories: 100\n\nToday's Total Calories: 100"
    ∧ ¬ sContains
        (add_food_log true rmC7 st0 "u1" "t1" "2026-10-12" "lunch" "apple" (some 100)).1
        "Error" :=
  ⟨rfl, by decide, by decide⟩

/-- Claim C7 amended: with the remote backend selected, every operation
leaves the local in-memory structures unchanged and never falls back to
them; a raising remote call makes the operation return the catch-all
`Error <doing X>: <message>` text as a normal result — except that a raise
from the goal-lookup call inside `add_food_log`'s and `get_food_log`'s
goal check is swallowed by the inner `except: pass` and the normal
success text is returned (still with no exception propagation and no
fallback). -/
theorem C7_remote_error_handling (rm : Remote) (st : LocalState)
    (u1 u2 now today gt mt fi gid : String) (tv : Int)
    (d desc : Option String) (tvo cvo dcg c : Option Int) :
    ((add_health_goal true rm st u1 u2 now gt tv d dcg).2 = st
     ∧ (update_health_goal true rm st gid tvo cvo desc).2 = st
     ∧ (get_health_goals true rm st).2 = st
     ∧ (add_food_log true rm st u1 now today mt fi c).2 = st
     ∧ (get_food_log true rm st today).2 = st)
    ∧ (∀ e, rm.add_health_goal ⟨pyLower gt, tv, 0, d.getD "", true⟩ = .error e →
        (add_health_goal true rm st u1 u2 now gt tv d dcg).1
          = "Error adding health goal: " ++ e)
    ∧ (∀ e, rm.update_health_goal gid ⟨tvo, cvo, desc⟩ = .error e →
        (update_health_goal true rm st gid tvo cvo desc).1
          = "Error updating health goal: " ++ e)
    ∧ (∀ e, rm.get_health_goals = .error e →
        (get_health_goals true rm st).1 = "Error getting health goals: " ++ e)
    ∧ (∀ e, rm.add_food_log ⟨pyLower mt, fi, c, today⟩ = .error e →
        (add_food_log true rm st u1 now today mt fi c).1
          = "Error adding food log: " ++ e)
    ∧ (∀ e, rm.get_food_logs today = .error e →
        (get_food_log true rm st today).1 = "Error getting food log: " ++ e)
    ∧ (∀ e fid rows, rm.add_food_log ⟨pyLower mt, fi, c, today⟩ = .ok fid →
        rm.get_food_logs today = .ok rows → rm.get_health_goals = .error e →
        (add_food_log true rm st u1 now today mt fi c).1
          = "Food logged successfully!\n\nMeal: " ++ pyTitle mt ++ "\nFood: " ++ fi ++
            "\n" ++ calLine c ++ "\nToday's Total Calories: " ++
            toString (rows.foldl (fun acc r => acc + r.calories.getD 0) 0))
    ∧ (∀ e rows, rm.get_food_logs today = .ok rows → rows.isEmpty = false →
        rm.get_health_goals = .error e →
        (get_food_log true rm st today).1
          = "Today's Food Log\n\n" ++ (renderMealsR (rows.foldl insertGroupedR [])).1 ++
            "Daily Total: " ++ toString (renderMealsR (rows.foldl insertGroupedR [])).2 ++
            " calories") := by
  refine ⟨remote_ops_preserve_local rm st u1 u2 now today gt mt fi gid tv d desc
    tvo cvo dcg c, ?_, ?_, ?_, ?_, ?_, ?_, ?_⟩
  · intro e h
    simp [add_health_goal, addHealthGoalRemote, h]
  · intro e h
    simp [update_health_goal, updateHealthGoalRemote, h]
  · intro e h
    simp [get_health_goals, getHealthGoalsRemote, h]
  · intro e h
    simp [add_food_log, addFoodLogRemote, h]
  · intro e h
    simp [get_food_log, getFoodLogRemote, h]
  · intro e fid rows h1 h2 h3
    simp [add_food_log, addFoodLogRemote, h1, h2, goalSectionRemote, h3,
      append_empty_str]
  · intro e rows h1 hne h3
    simp [get_food_log, getFoodLogRemote, h1, hne, goalSectionRemote, h3,
      append_empty_str]

theorem C7_remote_error_handling_witness :
    (update_health_goal true rm0 st0 "gid" none none none).1
        = "Error updating health goal: " ++ "down"
    ∧ (get_health_goals true rm0 st0).1 = "Error getting health goals: " ++ "down"
    ∧ (add_food_log true rmC7 st0 "u1" "t1" "2026-10-12" "lunch" "apple" (some 100)).1
        = "Food logged successfully!\n\nMeal: " ++ pyTitle "lunch" ++ "\nFood: " ++ "apple" ++
          "\n" ++ calLine (some 100) ++ "\nToday's Total Calories: " ++
          toString ((([⟨"lunch", "apple", some 100⟩] : List RFood)).foldl
            (fun acc r => acc + r.calories.getD 0) 0) := by
  have h1 := C7_remote_error_handling rm0 st0 "u1" "u2" "t1" "2026-10-12" "w" "lunch"
    "apple" "gid" 70 none none none none none none
  have h2 := C7_remote_error_handling rmC7 st0 "u1" "u2" "t1" "2026-10-12" "w" "lunch"
    "apple" "gid" 70 none none none none none (some 100)
  exact ⟨h1.2.2.1 "down" rfl, h1.2.2.2.1 "down" rfl,
    h2.2.2.2.2.2.2.1 "boom" "fid-r" [⟨"lunch", "apple", some 100⟩] rfl rfl rfl⟩

/-- Claim C8: the backend servicing a call is determined solely by that
call's own connectivity observation.  `is_connected()` is re-queried at
the top of every operation and its result is never stored, so it is a
per-call input of the model; each tool call then equals the pure remote
or local branch function accordingly, independent of session history, and
toggling connectivity between two calls flips the servicing backend. -/
theorem C8_per_call_backend_selection (rm : Remote) (st : LocalState)
    (c c1 c2 : ToolCall) :
    (∀ (b : Bool) (u1 u2 now gt : String) (tv : Int) (d : Option String)
        (dcg : Option Int),
      runCall b rm st (.addGoal u1 u2 now gt tv d dcg)
        = add_health_goal b rm st u1 u2 now gt tv d dcg)
    ∧ (∀ (b : Bool) (gid : String) (tvo cvo : Option Int) (desc : Option String),
      runCall b rm st (.updGoal gid tvo cvo desc)
        = update_health_goal b rm st gid tvo cvo desc)
    ∧ (∀ b : Bool, runCall b rm st .getGoals = get_health_goals b rm st)
    ∧ (∀ (b : Bool) (u now today mt fi : String) (cal : Option Int),
      runCall b rm st (.addFood u now today mt fi cal)
        = add_food_log b rm st u now today mt fi cal)
    ∧ (∀ (b : Bool) (today : String),
      runCall b rm st (.getFood today) = get_food_log b rm st today)
    ∧ (runCall true rm st c = serveRemote rm st c
       ∧ runCall false rm st c = serveLocal st c)
    ∧ (runSession rm st [(true, c1), (false, c2)]
        = ([(serveRemote rm st c1).1, (serveLocal (serveRemote rm st c1).2 c2).1],
           (serveLocal (serveRemote rm st c1).2 c2).2)
       ∧ runSession rm st [(false, c1), (true, c2)]
        = ([(serveLocal st c1).1, (serveRemote rm (serveLocal st c1).2 c2).1],
           (serveRemote rm (serveLocal st c1).2 c2).2)) := by
  refine ⟨?_, ?_, ?_, ?_, ?_, ⟨rfl, rfl⟩, ⟨?_, ?_⟩⟩
  · intro b u1 u2 now gt tv d dcg
    cases b <;> rfl
  · intro b gid tvo cvo desc
    cases b <;> rfl
  · intro b
    cases b <;> rfl
  · intro b u now today mt fi cal
    cases b <;> rfl
  · intro b today
    cases b <;> rfl
  · simp [runSession, runCall]
  · simp [runSession, runCall]

/-- Claim C9: no operation ever changes the `is_active` flag of an
existing goal, and recorded food entries are preserved (the food log only
grows by appends).  On the local backend: the adds insert fresh records
and append, `update_health_goal` patches only target, current and
description (the record's id, type and `is_active` key are untouched),
and the two reads mutate nothing; with the remote backend selected the
local structures are untouched entirely (and the update payload sent to
the remote store carries no `is_active` key, by the `GoalUpdates` shape). -/
theorem C9_is_active_and_entries_preserved (rm : Remote) (st : LocalState)
    (u1 u2 now today gt mt fi gid : String) (tv : Int)
    (d desc : Option String) (tvo cvo dcg c : Option Int)
    (hu1 : dictGet st.health_goals u1 = none)
    (hu2 : dictGet st.health_goals u2 = none) :
    (∀ k g, dictGet st.health_goals k = some g →
      dictGet ((add_health_goal false rm st u1 u2 now gt tv d dcg).2).health_goals k
        = some g)
    ∧ (add_health_goal false rm st u1 u2 now gt tv d dcg).2.food_logs = st.food_logs
    ∧ (∀ k g, dictGet st.health_goals k = some g →
        ∃ g', dictGet ((update_health_goal false rm st gid tvo cvo desc).2).health_goals k
            = some g'
          ∧ g'.is_active = g.is_active ∧ g'.goal_id = g.goal_id
          ∧ g'.goal_type = g.goal_type)
    ∧ (update_health_goal false rm st gid tvo cvo desc).2.food_logs = st.food_logs
    ∧ (add_food_log false rm st u1 now today mt fi c).2.health_goals = st.health_goals
    ∧ (add_food_log false rm st u1 now today mt fi c).2.food_logs
        = st.food_logs ++ [⟨u1, pyLower mt, fi, c, today, now⟩]
    ∧ (get_health_goals false rm st).2 = st
    ∧ (get_food_log false rm st today).2 = st
    ∧ ((add_health_goal true rm st u1 u2 now gt tv d dcg).2 = st
       ∧ (update_health_goal true rm st gid tvo cvo desc).2 = st
       ∧ (get_health_goals true rm st).2 = st
       ∧ (add_food_log true rm st u1 now today mt fi c).2 = st
       ∧ (get_food_log true rm st today).2 = st) := by
  refine ⟨?_, ?_, ?_, ?_, ?_, ?_, ?_, ?_,
    remote_ops_preserve_local rm st u1 u2 now today gt mt fi gid tv d desc tvo cvo dcg c⟩
  · intro k g h
    have hk1 : u1 ≠ k := by
      intro e; subst e; rw [hu1] at h; exact Option.noConfusion h
    have hk2 : u2 ≠ k := by
      intro e; subst e; rw [hu2] at h; exact Option.noConfusion h
    rcases dcg with _ | gcal
    · simp only [add_health_goal, Bool.false_eq_true, if_false, addHealthGoalLocal]
      rw [dictGet_dictInsert_ne _ _ hk1]
      exact h
    · by_cases hg : gcal = 0
      · simp only [add_health_goal, Bool.false_eq_true, if_false, addHealthGoalLocal,
          if_pos hg]
        rw [dictGet_dictInsert_ne _ _ hk1]
        exact h
      · simp only [add_health_goal, Bool.false_eq_true, if_false, addHealthGoalLocal,
          if_neg hg]
        rw [dictGet_dictInsert_ne _ _ hk2, dictGet_dictInsert_ne _ _ hk1]
        exact h
  · rcases dcg with _ | gcal
    · simp [add_health_goal, addHealthGoalLocal]
    · by_cases hg : gcal = 0 <;>
        simp [add_health_goal, addHealthGoalLocal, hg]
  · intro k g h
    cases hfind : dictGet st.health_goals gid with
    | none =>
        simp only [update_health_goal, Bool.false_eq_true, if_false,
          updateHealthGoalLocal, hfind]
        exact ⟨g, h, rfl, rfl, rfl⟩
    | some g0 =>
        simp only [update_health_goal, Bool.false_eq_true, if_false,
          updateHealthGoalLocal, hfind]
        rw [dictGet_patch]
        by_cases hk : k = gid
        · subst hk
          rw [hfind] at h
          injection h with h
          subst h
          refine ⟨{ g0 with
              target_value := tvo.getD g0.target_value
              current_value := cvo.getD g0.current_value
              description := match desc with | some s => some s | none => g0.description },
            ?_, rfl, rfl, rfl⟩
          rw [if_pos rfl, hfind]
          rfl
        · rw [if_neg hk]
          exact ⟨g, h, rfl, rfl, rfl⟩
  · cases hfind : dictGet st.health_goals gid <;>
      simp [update_health_goal, updateHealthGoalLocal, hfind]
  · simp only [add_food_log, Bool.false_eq_true, if_false, addFoodLogLocal]
    split <;> rfl
  · simp only [add_food_log, Bool.false_eq_true, if_false, addFoodLogLocal]
    split <;> rfl
  · simp only [get_health_goals, Bool.false_eq_true, if_false, getHealthGoalsLocal]
    split <;> rfl
  · simp only [get_food_log, Bool.false_eq_true, if_false, getFoodLogLocal]
    repeat' split
    all_goals rfl

theorem C9_is_active_and_entries_preserved_witness :
    dictGet stC9.health_goals "u1" = none
    ∧ dictGet stC9.health_goals "u2" = none
    ∧ dictGet ((add_health_goal false rm0 stC9 "u1" "u2" "t1" "steps" 9000 none none).2).health_goals "a"
        = some ⟨"a", "weight", 70, 5, none, "t0", some false⟩
    ∧ (∃ g', dictGet ((update_health_goal false rm0 stC9 "a" (some 80) none none).2).health_goals "a"
        = some g' ∧ g'.is_active = some false) := by
  have h := C9_is_active_and_entries_preserved rm0 stC9 "u1" "u2" "t1" "2026-10-12"
    "steps" "lunch" "rice" "a" 9000 none none (some 80) none none none
    (by decide) (by decide)
  refine ⟨by decide, by decide,
    h.1 "a" ⟨"a", "weight", 70, 5, none, "t0", some false⟩ (by decide), ?_⟩
  obtain ⟨g', hg', hact, _, _⟩ :=
    h.2.2.1 "a" ⟨"a", "weight", 70, 5, none, "t0", some false⟩ (by decide)
  exact ⟨g', hg', hact⟩

/-- Claim C10 refuted in its indistinguishability part: a 0-calorie entry
is indeed rendered with no calories annotation (truthiness), but it is
not indistinguishable from an absent-calories entry — logging with absent
calories makes the day-total sum raise, so `add_food_log` (and any later
same-day `get_food_log`) returns the catch-all error string instead of
rendering the entry at all. -/
theorem C10_zero_vs_absent_cex :
    ¬ sContains (add_food_log false rm0 st0 "f1" "t1" "d1" "lunch" "apple" (some 0)).1
        "\nCalories:"
    ∧ ¬ sContains (get_food_log false rm0 st10z "d1").1 "(0 cal)"
    ∧ (add_food_log false rm0 st0 "f1" "t1" "d1" "lunch" "apple" none).1
        = "Error adding food log: " ++ typeErrorMsg
    ∧ (add_food_log false rm0 st0 "f1" "t1" "d1" "lunch" "apple" (some 0)).1
        ≠ (add_food_log false rm0 st0 "f1" "t1" "d1" "lunch" "apple" none).1
    ∧ (get_food_log false rm0 st10n "d1").1 = "Error getting food log: " ++ typeErrorMsg
    ∧ (get_food_log false rm0 st10z "d1").1 ≠ (get_food_log false rm0 st10n "d1").1 :=
  ⟨by decide, by decide, by decide, by decide, by decide, by decide⟩

/-- Claim C10 amended: the truthiness checks do render a 0-calorie entry
with no calories annotation, and per entry this is the same empty
rendering an absent-calories entry would get (`calLine`/`calSuffix` are
"" for both `some 0` and `none`); but the displays are not
indistinguishable, because an absent-calories entry makes the day-total
sum raise: `add_food_log` with absent calories always returns the error
string, and `get_food_log` errors whenever some entry of the day has
absent calories, while the 0-calorie entry produces the normal text. -/
theorem C10_zero_calories_truthiness (rm : Remote) (st : LocalState)
    (u now today mt fi : String) :
    (calLine (some 0) = "" ∧ calLine none = ""
     ∧ calSuffix (some 0) = "" ∧ calSuffix none = "")
    ∧ (add_food_log false rm st u now today mt fi none).1
        = "Error adding food log: " ++ typeErrorMsg
    ∧ (∀ t, pySum (st.food_logs.filter (·.date == today)) = some t →
        (add_food_log false rm st u now today mt fi (some 0)).1
          = "Food logged successfully! (Local Storage)\n\nMeal: " ++ pyTitle mt ++
            "\nFood: " ++ fi ++ "\n" ++ calLine (some 0) ++
            "\nToday's Total Calories: " ++ toString t ++
            goalSectionLocal st.health_goals t)
    ∧ (∀ f, f ∈ st.food_logs.filter (·.date == today) → f.calories = none →
        (get_food_log false rm st today).1 = "Error getting food log: " ++ typeErrorMsg) := by
  refine ⟨⟨rfl, rfl, rfl, rfl⟩, ?_, ?_, ?_⟩
  · have hmem : (⟨u, pyLower mt, fi, none, today, now⟩ : FoodEntry)
        ∈ (st.food_logs ++ [(⟨u, pyLower mt, fi, none, today, now⟩ : FoodEntry)]).filter
          (·.date == today) :=
      List.mem_filter.mpr ⟨by simp, by simp⟩
    have hs : pySum ((st.food_logs ++ [(⟨u, pyLower mt, fi, none, today, now⟩ : FoodEntry)]).filter
        (·.date == today)) = none := by
      rw [pySum_eq_pySumR]
      exact pySumR_none_of_mem hmem rfl
    simp only [add_food_log, Bool.false_eq_true, if_false, addFoodLogLocal, hs]
  · intro t ht
    have hA : pySumR (st.food_logs.filter (·.date == today)) = some t := by
      rw [← pySum_eq_pySumR]; exact ht
    have hs : pySum ((st.food_logs ++ [(⟨u, pyLower mt, fi, some 0, today, now⟩ : FoodEntry)]).filter
        (·.date == today)) = some t := by
      rw [pySum_eq_pySumR, List.filter_append, pySumR_append, hA]
      simp [pySumR, addOpt]
    simp only [add_food_log, Bool.false_eq_true, if_false, addFoodLogLocal, hs]
  · intro f hf hc
    have hne : (st.food_logs.filter (·.date == today)).isEmpty = false := by
      rcases h : st.food_logs.filter (·.date == today) with _ | ⟨x, rest⟩
      · rw [h] at hf; cases hf
      · rw [h]; rfl
    have h1 : (renderMeals ((st.food_logs.filter (·.date == today)).foldl
        insertGrouped [])).map (·.2) = none := by
      rw [renderMeals_total, grouped_total]
      exact pySumR_none_of_mem hf hc
    have hnone : renderMeals ((st.food_logs.filter (·.date == today)).foldl
        insertGrouped []) = none := Option.map_eq_none'.mp h1
    simp only [get_food_log, Bool.false_eq_true, if_false, getFoodLogLocal, hne, hnone]

theorem C10_zero_calories_truthiness_witness :
    (add_food_log false rm0 st0 "f1" "t1" "d1" "lunch" "apple" none).1
        = "Error adding food log: " ++ typeErrorMsg
    ∧ (add_food_log false rm0 st0 "f1" "t1" "d1" "lunch" "apple" (some 0)).1
        = "Food logged successfully! (Local Storage)\n\nMeal: " ++ pyTitle "lunch" ++
          "\nFood: " ++ "apple" ++ "\n" ++ calLine (some 0) ++
          "\nToday's Total Calories: " ++ toString (0 : Int) ++
          goalSectionLocal st0.health_goals 0
    ∧ (get_food_log false rm0 st10n "d1").1 = "Error getting food log: " ++ typeErrorMsg := by
  have h := C10_zero_calories_truthiness rm0 st0 "f1" "t1" "d1" "lunch" "apple"
  have h2 := C10_zero_calories_truthiness rm0 st10n "f1" "t1" "d1" "lunch" "apple"
  exact ⟨h.2.1, h.2.2.1 0 (by decide), h2.2.2.2 e10n (by decide) rfl⟩

end HealthDiet
